import Mathlib

/-!
# CloudUnify Pro WebFrontend — verification of the session/token lifecycle
# and the live activity-stream client

Shallow embedding of `src/WebFrontend/src/store/auth.tsx` (Session Manager)
and the `ActivityStream` component (Live Stream Client), with theorems
checking the specification's claims about them.

Conventions of the embedding:
* JavaScript values appearing in JSON payloads are modelled by `Json`.
* A JWT string is modelled by `TokenStr`: whether the string is empty
  (JS truthiness of the token variable) together with the result of
  `decodeJwtPayload` on it (`none` models a decode failure; the base64 and
  `JSON.parse` platform primitives are abstracted into this field).
* `string | null` variables are modelled by `Option`; `null` is `none`.
* A web storage medium is `Option Store`: `none` models an unavailable
  storage whose accesses throw (every access in the source is wrapped in
  `try`/`catch`, so an unavailable storage simply keeps its state).
* `Date.now()/1000` is passed explicitly as `nowSec : Int`.
-/

set_option autoImplicit false

namespace CloudUnify

/-- JSON values as produced by `JSON.parse` (JS numbers restricted to the
integers actually occurring in JWT time claims). Parsed objects have
pairwise-distinct keys, so first-match field lookup is exact. -/
inductive Json where
  | null
  | bool (b : Bool)
  | num (n : Int)
  | str (s : String)
  | arr (elems : List Json)
  | obj (fields : List (String × Json))

namespace Json

/-- JS truthiness of a JSON value. -/
def truthy : Json → Bool
  | .null => false
  | .bool b => b
  | .num n => n != 0
  | .str s => s != ""
  | .arr _ => true
  | .obj _ => true

/-- Whether `typeof v === 'object'` holds for the value (arrays and objects;
`null` is excluded here because every use site first checks truthiness). -/
def isObjType : Json → Bool
  | .arr _ => true
  | .obj _ => true
  | _ => false

/-- Property access `v[k]`: `none` models `undefined`. -/
def getField : Json → String → Option Json
  | .obj fields, k => (fields.find? (fun p => p.1 = k)).map Prod.snd
  | _, _ => none

/-- Property access followed by `?? ` fall-through: both `undefined` and
`null` become `none` (JS nullish coalescing). -/
def fieldNN (j : Json) (k : String) : Option Json :=
  match j.getField k with
  | some .null => none
  | some v => some v
  | none => none

/-- Property access yielding a value only when `typeof v === 'number'`. -/
def numField (j : Json) (k : String) : Option Int :=
  match j.getField k with
  | some (.num n) => some n
  | _ => none

end Json

/-- JS truthiness of a possibly-`undefined` JSON value (as in `a || b`). -/
def optTruthy : Option Json → Bool
  | none => false
  | some v => v.truthy

/-- JS `a || b` on possibly-`undefined` JSON values. -/
def jsOr (a b : Option Json) : Option Json :=
  if optTruthy a then a else b

/-- A JWT string as the client sees it: `empty` is whether the string is
`""` (its JS truthiness), `payload` is the result of `decodeJwtPayload`
on it (`none`: the split/base64/`JSON.parse` pipeline failed). An empty
string always fails to decode (`"".split('.')` has fewer than 2 parts). -/
structure TokenStr where
  empty : Bool
  payload : Option Json

/-- JS truthiness of a `string | null` token variable (`!token` in the
source): false for `null` and for the empty string. -/
def tokenTruthy : Option TokenStr → Bool
  | none => false
  | some t => !t.empty

/-- Clock-skew tolerance in seconds (`CLOCK_SKEW_SECONDS`). -/
def CLOCK_SKEW_SECONDS : Int := 60

/-- The `exp` clause of `isJwtUsable`:
`exp !== undefined && nowSec > exp + CLOCK_SKEW_SECONDS`. -/
def expPast (nowSec : Int) : Option Int → Bool
  | some e => decide (nowSec > e + CLOCK_SKEW_SECONDS)
  | none => false

/-- The `nbf`/`iat` clauses of `isJwtUsable`:
`c !== undefined && nowSec + CLOCK_SKEW_SECONDS < c`. -/
def notYetValid (nowSec : Int) : Option Int → Bool
  | some c => decide (nowSec + CLOCK_SKEW_SECONDS < c)
  | none => false

/-- `isJwtUsable` from `auth.tsx`: validates the decoded payload's `exp`,
`nbf` and `iat` claims against `nowSec` with skew tolerance. -/
def isJwtUsable (nowSec : Int) (token : Option TokenStr) : Bool :=
  match token with
  | none => false
  | some t =>
    if t.empty then false
    else
      match t.payload with
      | none => false
      | some payload =>
        if !payload.truthy || !payload.isObjType then false
        else if expPast nowSec (payload.numField "exp") then false
        else if notYetValid nowSec (payload.numField "nbf") then false
        else if notYetValid nowSec (payload.numField "iat") then false
        else true

/-- `extractRolesFromToken`: `payload.role ?? payload.roles ?? []`,
then keep string entries of an array, or wrap a lone string. -/
def extractRolesFromToken (token : Option TokenStr) : List String :=
  match token with
  | none => []
  | some t =>
    if t.empty then []
    else
      match t.payload with
      | none => []
      | some payload =>
        if !payload.truthy then []
        else
          let raw := ((payload.fieldNN "role").orElse
            (fun _ => payload.fieldNN "roles")).getD (.arr [])
          match raw with
          | .arr xs => xs.filterMap (fun j =>
              match j with
              | .str s => some s
              | _ => none)
          | .str s => [s]
          | _ => []

/-- The `AuthUser` candidate built by `extractUserFromToken`; the fields
are untyped JSON values in the source (`any` cast to `AuthUser`). -/
structure AuthUser where
  email : Option Json
  username : Option Json
  sub : Option Json

/-- `extractUserFromToken`: builds the candidate from
`email || user_email`, `preferred_username || username || name`, `sub`,
and returns it only when some field is truthy. -/
def extractUserFromToken (token : Option TokenStr) : Option AuthUser :=
  match token with
  | none => none
  | some t =>
    if t.empty then none
    else
      match t.payload with
      | none => none
      | some payload =>
        if !payload.truthy || !payload.isObjType then none
        else
          let candidate : AuthUser :=
            { email := jsOr (payload.getField "email") (payload.getField "user_email")
              username := jsOr (jsOr (payload.getField "preferred_username")
                (payload.getField "username")) (payload.getField "name")
              sub := payload.getField "sub" }
          if optTruthy candidate.email || optTruthy candidate.username
              || optTruthy candidate.sub
          then some candidate
          else none

/-- `extractOrganizationIdFromToken`: first non-nullish of six claim names,
kept only when it is a string with non-blank trim. -/
def extractOrganizationIdFromToken (token : Option TokenStr) : Option String :=
  match token with
  | none => none
  | some t =>
    if t.empty then none
    else
      match t.payload with
      | none => none
      | some payload =>
        if !payload.truthy || !payload.isObjType then none
        else
          let raw := ((((((payload.fieldNN "organization_id").orElse
            (fun _ => payload.fieldNN "org_id")).orElse
            (fun _ => payload.fieldNN "organizationId")).orElse
            (fun _ => payload.fieldNN "organization")).orElse
            (fun _ => payload.fieldNN "tenant_id")).orElse
            (fun _ => payload.fieldNN "tenantId"))
          match raw with
          | some (.str s) => if s.trim ≠ "" then some s.trim else none
          | _ => none

/-! ## Web storage model

The source uses three keys: `cup_at` (access token), `cup_rt` (refresh
token), and `cup_persist` (remember flag, a `'true'`/`'false'` string, kept
in `localStorage` only). A `Store` records just these entries; an entry is
`none` when the key is absent. An entire medium is `Option Store`:
`none` models a storage whose accesses throw — every access in the source
is wrapped in `try`/`catch`, so on `none` reads yield the catch-default
and writes are ignored. -/

/-- One storage medium's relevant entries. -/
structure Store where
  atE : Option TokenStr
  rtE : Option TokenStr
  persistE : Option String

/-- A possibly-unavailable storage medium. -/
abbrev StorageM := Option Store

/-- `safeWrite` from `writeStoredAuth` applied to a token entry:
`setItem` when the value is a truthy string, `removeItem` otherwise
(a `null` or empty-string value removes the entry). -/
def storedVal (v : Option TokenStr) : Option TokenStr :=
  if tokenTruthy v then v else none

/-- `localStorage.setItem(PERSIST_KEY, remember ? 'true' : 'false')`,
wrapped in `try`/`catch` (no effect on an unavailable medium). -/
def setPersist (st : StorageM) (remember : Bool) : StorageM :=
  st.map (fun s => { s with persistE := some (if remember then "true" else "false") })

/-- Write both token entries of one medium (each via `safeWrite`). -/
def writeTokens (st : StorageM) (a r : Option TokenStr) : StorageM :=
  st.map (fun s => { s with atE := storedVal a, rtE := storedVal r })

/-- `writeStoredAuth` from `auth.tsx`: records the remember flag in
`localStorage`, writes the tokens into the medium selected by `remember`,
and clears the token entries of the other medium. -/
def writeStoredAuth (a r : Option TokenStr) (remember : Bool)
    (loc ses : StorageM) : StorageM × StorageM :=
  let loc := setPersist loc remember
  if remember then
    (writeTokens loc a r, writeTokens ses none none)
  else
    (writeTokens loc none none, writeTokens ses a r)

/-- What `readStoredAuth` returns. -/
structure StoredAuth where
  accessToken : Option TokenStr
  refreshToken : Option TokenStr
  remember : Bool

/-- `localStorage.getItem(PERSIST_KEY) === 'true'`, with the catch-default
`false` on an unavailable medium. -/
def getPersist (loc : StorageM) : Bool :=
  match loc with
  | none => false
  | some s => s.persistE = some "true"

/-- `readStoredAuth` from `auth.tsx`: reads the remember flag, then the
token pair from the medium it selects; if the access token read back is
truthy but not usable now, both tokens are discarded. -/
def readStoredAuth (nowSec : Int) (loc ses : StorageM) : StoredAuth :=
  let remember := getPersist loc
  let storage := if remember then loc else ses
  let a := storage.bind Store.atE
  let r := storage.bind Store.rtE
  if tokenTruthy a && !isJwtUsable nowSec a then
    { accessToken := none, refreshToken := none, remember := remember }
  else
    { accessToken := a, refreshToken := r, remember := remember }

/-! ## Session Manager state and operations -/

/-- The in-memory React state of `AuthProvider` that the claims concern. -/
structure AuthMem where
  accessToken : Option TokenStr
  refreshToken : Option TokenStr
  remember : Bool
  roles : List String
  user : Option AuthUser
  organizationId : Option String

/-- The whole world the Session Manager touches: provider memory plus the
two storage media. -/
structure AuthState where
  mem : AuthMem
  loc : StorageM
  ses : StorageM

/-- `setAuthFromTokens` from `auth.tsx`: keeps the access token only when
usable, replaces the in-memory session wholesale (tokens, flag, derived
claims) and persists through `writeStoredAuth`. -/
def setAuthFromTokens (nowSec : Int) (a r : Option TokenStr)
    (rememberFlag : Bool) (st : AuthState) : AuthState :=
  let usable := if tokenTruthy a then isJwtUsable nowSec a else false
  let finalAt := if usable then a else none
  let stores := writeStoredAuth finalAt r rememberFlag st.loc st.ses
  { mem :=
      { accessToken := finalAt
        refreshToken := r
        remember := rememberFlag
        roles := extractRolesFromToken finalAt
        user := extractUserFromToken finalAt
        organizationId := extractOrganizationIdFromToken finalAt }
    loc := stores.1
    ses := stores.2 }

/-- A token field of a login/refresh response body, as read through
`(res as any)?.access_token`: absent (`undefined`), a string (modelled as
`TokenStr`), or present with a non-string value. -/
inductive TokField where
  | missing
  | str (t : TokenStr)
  | nonStr (j : Json)

/-- `login` from `auth.tsx`, after the network call resolved with a body
whose token fields are `resAT`/`resRT`: throws (`Except.error`) unless both
fields are strings (`typeof`-check only), else stores via
`setAuthFromTokens`. -/
def login (nowSec : Int) (resAT resRT : TokField) (rememberFlag : Bool)
    (st : AuthState) : Except String AuthState :=
  match resAT, resRT with
  | .str a, .str r =>
      .ok (setAuthFromTokens nowSec (some a) (some r) rememberFlag st)
  | _, _ => .error "Login response missing access_token/refresh_token"

/-- `logout` from `auth.tsx`: `setAuthFromTokens(null, null, false)`. -/
def logout (nowSec : Int) (st : AuthState) : AuthState :=
  setAuthFromTokens nowSec none none false st

/-- Outcome of the `apiClient().auth.refresh` call as `refresh` observes it:
either the promise resolved with a body (whose token fields are recorded),
or it threw (network failure or an HTTP-error rejection such as 401). -/
inductive RefreshOutcome where
  | ok (resAT resRT : TokField)
  | err

/-- `refresh` from `auth.tsx`: guard on a truthy refresh token, then one
attempt whose thrown failure triggers `logout()`; a resolved body missing
either token string just reports `false`. Returns (result, new state). -/
def refresh (nowSec : Int) (outcome : RefreshOutcome) (st : AuthState) :
    Bool × AuthState :=
  if !tokenTruthy st.mem.refreshToken then (false, st)
  else
    match outcome with
    | .err => (false, logout nowSec st)
    | .ok a r =>
      match a, r with
      | .str a', .str r' =>
          (true, setAuthFromTokens nowSec (some a') (some r') st.mem.remember st)
      | _, _ => (false, st)

/-- The derived `isAuthenticated` value of the provider:
`Boolean(accessToken) && isJwtUsable(accessToken)`. -/
def isAuthenticated (nowSec : Int) (mem : AuthMem) : Bool :=
  tokenTruthy mem.accessToken && isJwtUsable nowSec mem.accessToken

/-- The hydration path of `AuthProvider` (initial `useMemo`/mount effect):
`readStoredAuth` followed by claim derivation from the stored access
token. -/
def hydrate (nowSec : Int) (loc ses : StorageM) : AuthMem :=
  let stored := readStoredAuth nowSec loc ses
  { accessToken := stored.accessToken
    refreshToken := stored.refreshToken
    remember := stored.remember
    roles := extractRolesFromToken stored.accessToken
    user := extractUserFromToken stored.accessToken
    organizationId := extractOrganizationIdFromToken stored.accessToken }

/-! ## Live Stream Client (`ActivityStream` component)

State covers the pieces the claims concern: the live list (`events`), the
pause buffer (`pendingRef.current`), the pause flag, the connection status,
and the socket bookkeeping. Sockets are numbered by a counter; `wsRef` is
the component's current socket reference and `openConns` the sockets that
have been created and not closed (the transport's view). -/

/-- A normalized activity event (`raw` omitted: never read back). -/
structure ActivityEvent where
  id : String
  timestamp : String
  message : String
deriving DecidableEq

/-- The component's `status` state. -/
inductive WsStatus where
  | disconnected
  | connecting
  | connected
  | error
deriving DecidableEq

/-- The `ActivityStream` component state relevant to the claims. -/
structure StreamState where
  events : List ActivityEvent
  pending : List ActivityEvent
  paused : Bool
  status : WsStatus
  wsRef : Option Nat
  openConns : List Nat
  nextId : Nat
deriving DecidableEq

/-- `appendEvent` from `ActivityStream`: while paused, `unshift` into the
pending buffer and cap it at `maxEvents`; otherwise prepend to the live
list and cap it (`slice(0, maxEvents)`). -/
def appendEvent (maxEvents : Nat) (ev : ActivityEvent) (st : StreamState) :
    StreamState :=
  if st.paused then
    let p := ev :: st.pending
    { st with pending := if p.length > maxEvents then p.take maxEvents else p }
  else
    { st with events := (ev :: st.events).take maxEvents }

/-- A sequence of events arriving in order (first element arrives first). -/
def arriveAll (maxEvents : Nat) (evs : List ActivityEvent)
    (st : StreamState) : StreamState :=
  evs.foldl (fun s e => appendEvent maxEvents e s) st

/-- `setPaused(false)` together with the flush effect that fires on the
pause-flag change: buffered events go ahead of the live list (then cap at
`maxEvents`) and the buffer empties; nothing moves if it was empty. -/
def unpause (maxEvents : Nat) (st : StreamState) : StreamState :=
  let st := { st with paused := false }
  if st.pending.length > 0 then
    { st with
      events := (st.pending ++ st.events).take maxEvents
      pending := [] }
  else st

/-- The `connect` function of `ActivityStream`: returns early only when
authentication or the URL is missing (`canAuth` summarizes
`isAuthenticated && accessToken && wsUrl`); otherwise sets status to
`connecting` and opens a fresh socket, overwriting `wsRef` without closing
the previous socket. There is no guard on the current status. -/
def connectFn (canAuth : Bool) (st : StreamState) : StreamState :=
  if !canAuth then st
  else
    { st with
      status := .connecting
      wsRef := some st.nextId
      openConns := st.nextId :: st.openConns
      nextId := st.nextId + 1 }

/-- `disconnect` from `ActivityStream`: closes the referenced socket (if
any), drops the reference and sets status to `disconnected`. -/
def disconnect (st : StreamState) : StreamState :=
  { st with
    status := .disconnected
    wsRef := none
    openConns :=
      match st.wsRef with
      | some i => st.openConns.erase i
      | none => st.openConns }

/-- The Connect button as rendered: it is `disabled` (the click does
nothing) when `!canConnect || status === 'connected' ||
status === 'connecting'`; otherwise the click runs `connect`. -/
def clickConnect (canAuth : Bool) (st : StreamState) : StreamState :=
  if !canAuth || st.status = .connected || st.status = .connecting then st
  else connectFn canAuth st

/-! ## Concrete values for counterexamples and witnesses -/

/-- A storage medium with no entries. -/
def emptyStore : Store := ⟨none, none, none⟩

/-- Provider memory with no session. -/
def mem0 : AuthMem := ⟨none, none, false, [], none, none⟩

/-- A signed-out state with both storage media available and empty. -/
def st0 : AuthState := ⟨mem0, some emptyStore, some emptyStore⟩

/-- The empty string `""` as a token value (falsy; fails to decode). -/
def emptyTok : TokenStr := ⟨true, none⟩

/-- A non-empty token whose payload is `{}`: usable at every time (object,
truthy, no time claims). -/
def okTok : TokenStr := ⟨false, some (.obj [])⟩

/-- A non-empty refresh-token string (its payload is never inspected). -/
def rTok : TokenStr := ⟨false, none⟩

/-- An authenticated state: tokens in memory and in `localStorage`. -/
def stAuthed : AuthState :=
  ⟨⟨some okTok, some rTok, true, [], none, none⟩,
   some ⟨some okTok, some rTok, some "true"⟩, some emptyStore⟩

/-- A token whose payload is `{"exp": 0}`. -/
def expTok : TokenStr := ⟨false, some (.obj [("exp", .num 0)])⟩

/-- Sample activity events. -/
def evA : ActivityEvent := ⟨"a", "2024-01-01T00:00:01Z", "one"⟩

/-- Sample activity events. -/
def evB : ActivityEvent := ⟨"b", "2024-01-01T00:00:02Z", "two"⟩

/-- Sample activity events. -/
def evC : ActivityEvent := ⟨"c", "2024-01-01T00:00:03Z", "three"⟩

/-- Sample activity events. -/
def evD : ActivityEvent := ⟨"d", "2024-01-01T00:00:00Z", "old"⟩

/-- A connected, unpaused stream state with an empty live list; socket 0 is
the active connection. -/
def connSt : StreamState := ⟨[], [], false, .connected, some 0, [0], 1⟩

/-- A connected stream state that has just been paused: one pre-existing
live entry, empty pause buffer. -/
def pausedSt : StreamState := ⟨[evD], [], true, .connected, some 0, [0], 1⟩

/-! ## Claim theorems -/

/-- C2: a token whose decoded payload carries a numeric `exp` more than the
60-second skew tolerance in the past of the current time is not usable
(`isJwtUsable` is false), and the `isAuthenticated` value derived from any
provider memory holding that token is false, even though the token bytes
are present (in memory/storage). -/
theorem c2_expired_token_not_usable (nowSec e : Int) (b : Bool) (p : Json)
    (hexp : p.numField "exp" = some e)
    (hpast : nowSec > e + CLOCK_SKEW_SECONDS) :
    isJwtUsable nowSec (some ⟨b, some p⟩) = false ∧
    ∀ mem : AuthMem, mem.accessToken = some ⟨b, some p⟩ →
      isAuthenticated nowSec mem = false := by
  have husable : isJwtUsable nowSec (some ⟨b, some p⟩) = false := by
    have hpe : expPast nowSec (p.numField "exp") = true := by
      rw [hexp]; simp [expPast, hpast]
    cases b <;> simp [isJwtUsable, hpe]
  refine ⟨husable, fun mem hmem => ?_⟩
  simp [isAuthenticated, hmem, husable]

/-- Witness for C2: the token `{"exp": 0}` at time 1000 is unusable, and a
memory holding it is not authenticated. -/
theorem c2_expired_token_not_usable_witness :
    isJwtUsable 1000 (some expTok) = false ∧
    isAuthenticated 1000 ⟨some expTok, none, false, [], none, none⟩ = false := by
  have h := c2_expired_token_not_usable 1000 0 false (.obj [("exp", .num 0)])
    rfl (by decide)
  exact ⟨h.1, h.2 _ rfl⟩

/-- C10 (implicit): a non-empty token whose payload decodes to a JSON
object carrying no numeric `exp`, `nbf` or `iat` claim is usable at every
time, and the `isAuthenticated` value derived from a memory holding it is
true at every time — it never expires. -/
theorem c10_no_time_claims_never_expires (fs : List (String × Json))
    (hexp : (Json.obj fs).numField "exp" = none)
    (hnbf : (Json.obj fs).numField "nbf" = none)
    (hiat : (Json.obj fs).numField "iat" = none) :
    ∀ nowSec : Int,
      isJwtUsable nowSec (some ⟨false, some (.obj fs)⟩) = true ∧
      ∀ mem : AuthMem, mem.accessToken = some ⟨false, some (.obj fs)⟩ →
        isAuthenticated nowSec mem = true := by
  intro nowSec
  have husable : isJwtUsable nowSec (some ⟨false, some (.obj fs)⟩) = true := by
    simp [isJwtUsable, Json.truthy, Json.isObjType, hexp, hnbf, hiat,
      expPast, notYetValid]
  refine ⟨husable, fun mem hmem => ?_⟩
  simp [isAuthenticated, hmem, husable, tokenTruthy]

/-- Witness for C10: the token `{}` is usable at times 0 and 10^9, and a
memory holding it stays authenticated. -/
theorem c10_no_time_claims_never_expires_witness :
    isJwtUsable 0 (some okTok) = true ∧
    isJwtUsable 1000000000 (some okTok) = true ∧
    isAuthenticated 1000000000 ⟨some okTok, none, false, [], none, none⟩ = true := by
  have h0 := c10_no_time_claims_never_expires [] rfl rfl rfl 0
  have h1 := c10_no_time_claims_never_expires [] rfl rfl rfl 1000000000
  exact ⟨h0.1, h1.1, h1.2 _ rfl⟩

/-- C9: `logout()` is idempotent — a second call in a row changes nothing
(the in-memory session, the remember flag and both storage media's token
entries are already cleared); it is a total function (every storage access
in the source is caught, so it never throws, whatever the availability of
either medium — covered by quantifying over both media including the
unavailable `none`), and it takes no network outcome as input. -/
theorem c9_logout_idempotent :
    ∀ (n n' : Int) (st : AuthState),
      logout n' (logout n st) = logout n st ∧
      (logout n st).mem.accessToken = none ∧
      (logout n st).mem.refreshToken = none ∧
      (logout n st).mem.remember = false ∧
      (logout n st).loc.bind Store.atE = none ∧
      (logout n st).loc.bind Store.rtE = none ∧
      (logout n st).ses.bind Store.atE = none ∧
      (logout n st).ses.bind Store.rtE = none := by
  intro n n' st
  obtain ⟨mem, loc, ses⟩ := st
  cases loc <;> cases ses <;>
    exact ⟨rfl, rfl, rfl, rfl, rfl, rfl, rfl, rfl⟩

/-- C1 fails as stated: a login whose response carries the empty string as
both tokens succeeds (the source only checks `typeof === 'string'`), yet
afterwards *neither* storage medium holds the access-token entry — not
"exactly one". Starting signed out with both media empty and
`rememberFlag = true`, the successful login leaves the access-token entry
absent from both media. -/
theorem c1_counterexample :
    (login 0 (.str emptyTok) (.str emptyTok) true st0).map
      (fun st' => (st'.loc.bind Store.atE, st'.loc.bind Store.rtE,
        st'.ses.bind Store.atE, st'.ses.bind Store.rtE)) =
      .ok (none, none, none, none) := by
  rfl

/-- C1 amended: for every successful `login` whose returned access token is
non-empty and usable at the current time and whose refresh token is
non-empty, with both storage media available, exactly one medium —
`localStorage` iff `rememberFlag`, `sessionStorage` otherwise — holds the
access- and refresh-token entries afterwards and the other holds no token
values; the medium is determined solely by `rememberFlag`. -/
theorem c1_amended_one_medium_holds_tokens (nowSec : Int) (a r : TokenStr)
    (rem : Bool) (mem : AuthMem) (l s : Store)
    (ha : a.empty = false) (hr : r.empty = false)
    (hus : isJwtUsable nowSec (some a) = true) :
    ∃ st', login nowSec (.str a) (.str r) rem ⟨mem, some l, some s⟩ = .ok st' ∧
      (st'.loc.bind Store.atE, st'.loc.bind Store.rtE) =
        (if rem then (some a, some r) else (none, none)) ∧
      (st'.ses.bind Store.atE, st'.ses.bind Store.rtE) =
        (if rem then (none, none) else (some a, some r)) := by
  refine ⟨_, rfl, ?_, ?_⟩ <;>
    cases rem <;>
      simp [setAuthFromTokens, writeStoredAuth, writeTokens, setPersist,
        storedVal, tokenTruthy, ha, hr, hus]

/-- Witness for C1 amended: logging in with the usable token `{}` and a
non-empty refresh token, `remember = true`, from a signed-out state. -/
theorem c1_amended_one_medium_holds_tokens_witness :
    ∃ st', login 0 (.str okTok) (.str rTok) true ⟨mem0, some emptyStore, some emptyStore⟩ = .ok st' ∧
      (st'.loc.bind Store.atE, st'.loc.bind Store.rtE) =
        (if true then (some okTok, some rTok) else (none, none)) ∧
      (st'.ses.bind Store.atE, st'.ses.bind Store.rtE) =
        (if true then (none, none) else (some okTok, some rTok)) :=
  c1_amended_one_medium_holds_tokens 0 okTok rTok true mem0 emptyStore emptyStore
    rfl rfl rfl

/-- C6 fails as stated: the claim requires a response whose token fields
are empty strings to be rejected with a malformed-response error, but the
source's shape check is `typeof !== 'string'` only, so a response with
`access_token = "" ` and `refresh_token = ""` makes `login` succeed (it
resolves with the new state instead of throwing; the unusable empty access
token is dropped, so nothing is stored and the remember flag is persisted
as `'false'`). -/
theorem c6_counterexample :
    login 0 (.str emptyTok) (.str emptyTok) false st0 =
      .ok ⟨⟨none, some emptyTok, false, [], none, none⟩,
        some ⟨none, none, some "false"⟩, some ⟨none, none, none⟩⟩ := by
  rfl

/-- C6 amended: `login` fails with the malformed-response error exactly
when `access_token` or `refresh_token` is absent or not a string; an
empty-string token passes the shape check, so such a login succeeds (the
unusable access token is simply discarded before storing). -/
theorem c6_amended_shape_check (nowSec : Int) (aF rF : TokField) (rem : Bool)
    (st : AuthState) :
    (∃ st', login nowSec aF rF rem st = .ok st') ↔
      (∃ a, aF = .str a) ∧ (∃ r, rF = .str r) := by
  cases aF <;> cases rF <;> simp [login]

/-- C7: round-trip — after a successful `login(creds, remember=true)` in
any state whose `localStorage` is available, running hydration
(`readStoredAuth` plus claim derivation) at the same time instant yields
exactly the claims derived at login time: the same `roles`, the same
organization/tenant id, and the same user record (hence the same
subject). -/
theorem c7_login_hydrate_roundtrip (nowSec : Int) (a r : TokenStr)
    (mem : AuthMem) (l : Store) (ses : StorageM) :
    ∃ st', login nowSec (.str a) (.str r) true ⟨mem, some l, ses⟩ = .ok st' ∧
      (hydrate nowSec st'.loc st'.ses).roles = st'.mem.roles ∧
      (hydrate nowSec st'.loc st'.ses).organizationId = st'.mem.organizationId ∧
      (hydrate nowSec st'.loc st'.ses).user = st'.mem.user := by
  refine ⟨_, rfl, ?_, ?_, ?_⟩ <;>
    cases hemp : a.empty <;> cases hu : isJwtUsable nowSec (some a) <;>
      simp [setAuthFromTokens, writeStoredAuth, writeTokens, setPersist,
        storedVal, tokenTruthy, readStoredAuth, getPersist, hydrate, hemp, hu]

/-- C3 fails as stated: with a refresh token present, a refresh attempt
that resolves with a malformed body (here both token fields `null`)
reports failure but performs no `logout()` — the state is returned
unchanged, the access token still present in memory and in `localStorage`,
whereas a `logout()` would have cleared it. Only a *thrown* failure takes
the logout path. -/
theorem c3_counterexample :
    refresh 0 (.ok (.nonStr .null) (.nonStr .null)) stAuthed = (false, stAuthed) ∧
    stAuthed.mem.accessToken = some okTok ∧
    stAuthed.loc.bind Store.atE = some okTok ∧
    (logout 0 stAuthed).mem.accessToken = none ∧
    (logout 0 stAuthed).loc.bind Store.atE = none :=
  ⟨rfl, rfl, rfl, rfl, rfl⟩

/-- C3 amended: (i) with no (or an empty) refresh token, `refresh` fails
immediately with the state unchanged, and the outcome of any network
attempt is ignored — no call is observed; (ii) when the attempt throws
(network error or an HTTP-error rejection such as 401), `refresh` performs
a full `logout()` and reports failure; (iii) when the attempt resolves but
either token field is not a string, `refresh` reports failure *without*
logging out, leaving the state unchanged. There is no retry: each call
consumes exactly one outcome. -/
theorem c3_amended_refresh_failure_paths :
    (∀ (n : Int) (o : RefreshOutcome) (st : AuthState),
        tokenTruthy st.mem.refreshToken = false →
        refresh n o st = (false, st)) ∧
    (∀ (n : Int) (st : AuthState),
        tokenTruthy st.mem.refreshToken = true →
        refresh n .err st = (false, logout n st)) ∧
    (∀ (n : Int) (aF rF : TokField) (st : AuthState),
        tokenTruthy st.mem.refreshToken = true →
        ((∀ t, aF ≠ .str t) ∨ (∀ t, rF ≠ .str t)) →
        refresh n (.ok aF rF) st = (false, st)) := by
  refine ⟨?_, ?_, ?_⟩
  · intro n o st h
    simp [refresh, h]
  · intro n st h
    simp [refresh, h]
  · intro n aF rF st h hm
    cases aF with
    | str a' =>
      cases rF with
      | str r' =>
        rcases hm with hm | hm
        · exact absurd rfl (hm a')
        · exact absurd rfl (hm r')
      | missing => simp [refresh, h]
      | nonStr j => simp [refresh, h]
    | missing => cases rF <;> simp [refresh, h]
    | nonStr j => cases rF <;> simp [refresh, h]

/-- Capping an already-capped tail: appending a capped list and capping
again equals capping the uncapped concatenation. -/
theorem take_append_take (A l : List ActivityEvent) (m : Nat) :
    (A ++ l.take m).take m = (A ++ l).take m := by
  simp [List.take_append_eq_append_take, List.take_take,
    Nat.min_eq_left (Nat.sub_le m A.length)]

/-- While unpaused, arrivals leave the pause flag untouched and the live
list is always the newest-first cap of all arrivals over the initial
list. -/
theorem arriveAll_events (m : Nat) (evs : List ActivityEvent) :
    ∀ st : StreamState, st.paused = false → st.events.length ≤ m →
      (arriveAll m evs st).paused = false ∧
      (arriveAll m evs st).events = (evs.reverse ++ st.events).take m := by
  induction evs with
  | nil =>
    intro st hp hlen
    exact ⟨hp, by simp [arriveAll, List.take_of_length_le hlen]⟩
  | cons e rest ih =>
    intro st hp hlen
    have hstep : arriveAll m (e :: rest) st = arriveAll m rest (appendEvent m e st) := rfl
    have hpe : (appendEvent m e st).paused = false := by
      simp [appendEvent, hp]
    have heve : (appendEvent m e st).events = (e :: st.events).take m := by
      simp [appendEvent, hp]
    have hlen' : (appendEvent m e st).events.length ≤ m := by
      rw [heve]
      exact List.length_take_le _ _
    obtain ⟨hq, he⟩ := ih (appendEvent m e st) hpe hlen'
    refine ⟨by rwa [hstep], ?_⟩
    rw [hstep, he, heve, take_append_take]
    congr 1
    simp

/-- C4: with capacity at least 3, from any paused state whose pause buffer
is empty (as it is at the moment pausing begins, since every flush empties
it), after events E1, E2, E3 arrive in that order and the stream is
unpaused, the live list is exactly E3, E2, E1 (newest-first) ahead of all
pre-pause live entries (capped at capacity), its first three entries are
E3, E2, E1, and the pause buffer is empty. -/
theorem c4_pause_flush_ordering (m : Nat) (hm : 3 ≤ m) (st : StreamState)
    (hp : st.paused = true) (hq : st.pending = [])
    (e1 e2 e3 : ActivityEvent) :
    (unpause m (appendEvent m e3 (appendEvent m e2 (appendEvent m e1 st)))).events =
      ([e3, e2, e1] ++ st.events).take m ∧
    (unpause m (appendEvent m e3 (appendEvent m e2 (appendEvent m e1 st)))).events.take 3 =
      [e3, e2, e1] ∧
    (unpause m (appendEvent m e3 (appendEvent m e2 (appendEvent m e1 st)))).pending = [] := by
  have h1 : ¬ (1 > m) := by omega
  have h2 : ¬ (2 > m) := by omega
  have h3 : ¬ (3 > m) := by omega
  have hmin : min 3 m = 3 := Nat.min_eq_left hm
  refine ⟨?_, ?_, ?_⟩ <;>
    simp [appendEvent, unpause, hp, hq, h1, h2, h3, List.take_take, hmin,
      List.take_append_eq_append_take]

/-- Witness for C4: capacity 3, a freshly paused state with one live
entry, events A, B, C. -/
theorem c4_pause_flush_ordering_witness :
    (unpause 3 (appendEvent 3 evC (appendEvent 3 evB (appendEvent 3 evA pausedSt)))).events =
      ([evC, evB, evA] ++ pausedSt.events).take 3 ∧
    (unpause 3 (appendEvent 3 evC (appendEvent 3 evB (appendEvent 3 evA pausedSt)))).events.take 3 =
      [evC, evB, evA] ∧
    (unpause 3 (appendEvent 3 evC (appendEvent 3 evB (appendEvent 3 evA pausedSt)))).pending = [] :=
  c4_pause_flush_ordering 3 (by decide) pausedSt rfl rfl evA evB evC

/-- C5 fails as stated: it quantifies over every k > 0, but when k exceeds
the capacity N the k most recent events cannot all fit. With capacity
N = 1 and N + k = 3 events (k = 2) arriving unpaused, the live list ends
as just the last event, and the 2 most recent events are not a prefix of
it. -/
theorem c5_counterexample :
    (arriveAll 1 [evA, evB, evC] connSt).events = [evC] ∧
    ¬ [evC, evB] <+: (arriveAll 1 [evA, evB, evC] connSt).events := by
  refine ⟨rfl, fun h => ?_⟩
  have hlen := h.length_le
  rw [show (arriveAll 1 [evA, evB, evC] connSt).events = [evC] from rfl] at hlen
  simp at hlen

/-- C5 amended: for capacity N and N + k arriving events with 0 < k ≤ N,
while connected and unpaused and starting within capacity, the live list's
length never exceeds N at any point of the arrival sequence, and after all
arrivals the k most recent events are a prefix of the list in newest-first
order (entries beyond capacity are evicted oldest-first). -/
theorem c5_amended_bounded_retention (m k : Nat) (evs : List ActivityEvent)
    (st : StreamState) (hp : st.paused = false) (hlen : st.events.length ≤ m)
    (hcount : evs.length = m + k) (hk1 : 1 ≤ k) (hkm : k ≤ m) :
    (∀ p, p <+: evs → (arriveAll m p st).events.length ≤ m) ∧
    evs.reverse.take k <+: (arriveAll m evs st).events := by
  constructor
  · intro p hpre
    rcases p with _ | ⟨e, rest⟩
    · simpa [arriveAll] using hlen
    · rw [(arriveAll_events m (e :: rest) st hp hlen).2]
      exact List.length_take_le _ _
  · have he := (arriveAll_events m evs st hp hlen).2
    have hsub : k - evs.reverse.length = 0 := by
      simp [List.length_reverse, hcount]
    have htake : (arriveAll m evs st).events.take k = evs.reverse.take k := by
      rw [he, List.take_take, Nat.min_eq_left hkm,
        List.take_append_eq_append_take, hsub]
      simp
    exact ⟨(arriveAll m evs st).events.drop k,
      by rw [← htake, List.take_append_drop]⟩

/-- Witness for C5 amended: capacity 2, k = 1, three events from an empty
connected state. -/
theorem c5_amended_bounded_retention_witness :
    (∀ p, p <+: [evA, evB, evC] →
      (arriveAll 2 p connSt).events.length ≤ 2) ∧
    [evA, evB, evC].reverse.take 1 <+: (arriveAll 2 [evA, evB, evC] connSt).events :=
  c5_amended_bounded_retention 2 1 [evA, evB, evC] connSt rfl
    (by decide) rfl (by decide) (by decide)

/-- C8 fails as stated: the `connect` function carries no guard on the
current status (only the Connect *button* is disabled). Invoking it in an
`Open` (connected) state is not a no-op: the status flips to connecting
and a second socket is opened and stored in the reference while the first
socket (id 0) is never closed — two connections are then live at once. -/
theorem c8_counterexample :
    connSt.status = .connected ∧
    (connectFn true connSt).status = .connecting ∧
    (connectFn true connSt).openConns = [1, 0] ∧
    (connectFn true connSt).wsRef = some 1 :=
  ⟨rfl, rfl, rfl, rfl⟩

/-- C8 amended: the only UI entry point to `connect` — the Connect button —
is disabled whenever the status is `connected` or `connecting`, so a click
in those states leaves the state (status, connection, live list, buffer)
entirely unchanged; the `connect` function itself, invoked directly,
performs no status guard and replaces the connection without closing the
previous one. -/
theorem c8_amended_click_noop (canAuth : Bool) (st : StreamState)
    (h : st.status = .connected ∨ st.status = .connecting) :
    clickConnect canAuth st = st := by
  rcases h with h | h <;> simp [clickConnect, h]

/-- Witness for C8 amended: clicking Connect in a connected state. -/
theorem c8_amended_click_noop_witness :
    connSt.status = .connected ∧ clickConnect true connSt = connSt :=
  ⟨rfl, c8_amended_click_noop true connSt (Or.inl rfl)⟩

end CloudUnify
